import Mathlib

/-!
Verification of the question-navigation / statistics core of the
sat-math-bot repository (src/main.py, src/db.py), shallowly embedded in
Lean 4.  Python dicts become association lists or functions, Python sets
become duplicate-free lists, mutation becomes explicit state passing, and
an uncaught Python exception is modelled by a `raised` flag on the result
of a handler step.
-/

namespace SatBot

/-- A question record, with exactly the fields src/main.py reads.
Optional JSON fields are `Option String`; `options` keeps the ordered
letter-to-text mapping of the source. -/
structure Question where
  id : String
  questionKg : Option String
  text : Option String
  options : List (String × String)
  answer : Option String
  correct : Option String
  explanationKg : Option String
  explanation : Option String
  difficulty : Option String
  topic : Option String
  image : Option String
deriving DecidableEq

/-- Per-difficulty sub-counters: the `{"total":, "correct":}` dicts stored
in `stats["by_diff"]` (src/main.py:60). -/
structure DiffStats where
  total : Nat
  correct : Nat
deriving DecidableEq

/-- A user's statistics entry (src/main.py:55-63): `total`, `correct`,
`by_diff` as an insertion-ordered association list, and the `wrong_qnums`
set as a duplicate-free list of position tokens. -/
structure Stats where
  total : Nat
  correct : Nat
  byDiff : List (String × DiffStats)
  wrongQnums : List String
deriving DecidableEq

/-- The zeroed entry `get_user_stats` inserts on first use
(src/main.py:55-63). -/
def initUserStats : Stats := ⟨0, 0, [], []⟩

/-- Python set `add`: no-op when the element is present, else append. -/
def pySetAdd (l : List String) (x : String) : List String :=
  if x ∈ l then l else l ++ [x]

/-- Python set `discard`: remove every occurrence (there is at most one). -/
def pySetDiscard (l : List String) (x : String) : List String :=
  l.filter (fun y => !(y == x))

/-- `by_diff.setdefault(diff, {"total": 0, "correct": 0})` followed by the
in-place increments of src/main.py:74-77, as one pure function on the
association list. -/
def bumpDiff : List (String × DiffStats) → String → Bool → List (String × DiffStats)
  | [], k, c => [(k, ⟨1, if c then 1 else 0⟩)]
  | (k', d) :: rest, k, c =>
    if k' = k then (k', ⟨d.total + 1, d.correct + (if c then 1 else 0)⟩) :: rest
    else (k', d) :: bumpDiff rest k c

/-- `update_stats` (src/main.py:66-83): increment `total` (and `correct`
when right), bump the per-difficulty counters keyed by
`question.get("difficulty", "unknown")`, and add/discard the position in
`wrong_qnums`. -/
def update_stats (st : Stats) (q : Question) (qnum : String) (isCorrect : Bool) : Stats :=
  { total := st.total + 1
    correct := st.correct + (if isCorrect then 1 else 0)
    byDiff := bumpDiff st.byDiff (q.difficulty.getD "unknown") isCorrect
    wrongQnums :=
      if isCorrect then pySetDiscard st.wrongQnums qnum
      else pySetAdd st.wrongQnums qnum }

/-- The Ledger invariant of the spec: the top-level counters equal the
sums of the per-difficulty counters. -/
def statsInvariant (st : Stats) : Prop :=
  st.total = (st.byDiff.map (fun e => e.2.total)).sum
    ∧ st.correct = (st.byDiff.map (fun e => e.2.correct)).sum

theorem bumpDiff_sum_total (l : List (String × DiffStats)) (k : String) (c : Bool) :
    ((bumpDiff l k c).map (fun e => e.2.total)).sum
      = (l.map (fun e => e.2.total)).sum + 1 := by
  induction l with
  | nil => simp [bumpDiff]
  | cons hd tl ih =>
    obtain ⟨k', d⟩ := hd
    by_cases h : k' = k
    · simp [bumpDiff, h]
      omega
    · simp [bumpDiff, h, ih]
      omega

theorem bumpDiff_sum_correct (l : List (String × DiffStats)) (k : String) (c : Bool) :
    ((bumpDiff l k c).map (fun e => e.2.correct)).sum
      = (l.map (fun e => e.2.correct)).sum + (if c then 1 else 0) := by
  induction l with
  | nil => simp [bumpDiff]
  | cons hd tl ih =>
    obtain ⟨k', d⟩ := hd
    by_cases h : k' = k
    · simp [bumpDiff, h]
      omega
    · simp [bumpDiff, h, ih]
      omega

theorem update_stats_invariant (st : Stats) (q : Question) (qnum : String)
    (c : Bool) (h : statsInvariant st) :
    statsInvariant (update_stats st q qnum c) := by
  obtain ⟨h1, h2⟩ := h
  constructor
  · simp [update_stats, bumpDiff_sum_total, h1]
  · simp [update_stats, bumpDiff_sum_correct, h2]

/-- User identifiers (Telegram ids). -/
abbrev UserId := Nat

/-- One call to `update_stats`, with everything the call site supplies. -/
structure UpdateCall where
  user : UserId
  question : Question
  qnum : String
  isCorrect : Bool

/-- The effect of one `update_stats` call on the `USER_STATS` map:
`get_user_stats` get-or-creates the entry and `update_stats` rewrites it. -/
def applyOne (m : UserId → Option Stats) (c : UpdateCall) : UserId → Option Stats :=
  fun v =>
    if v = c.user then
      some (update_stats ((m c.user).getD initUserStats) c.question c.qnum c.isCorrect)
    else m v

/-- A whole sequence of `update_stats` calls against the `USER_STATS` map. -/
def applyCalls (m : UserId → Option Stats) (calls : List UpdateCall) : UserId → Option Stats :=
  calls.foldl applyOne m

theorem applyCalls_invariant (calls : List UpdateCall) (m : UserId → Option Stats)
    (hm : ∀ u st, m u = some st → statsInvariant st) :
    ∀ u st, applyCalls m calls u = some st → statsInvariant st := by
  induction calls generalizing m with
  | nil => exact hm
  | cons c cs ih =>
    refine ih (applyOne m c) ?_
    intro u st h
    unfold applyOne at h
    by_cases hu : u = c.user
    · simp only [hu, if_pos rfl] at h
      cases h
      refine update_stats_invariant _ _ _ _ ?_
      cases hmc : m c.user with
      | none => simp [hmc, initUserStats, statsInvariant]
      | some st0 => simpa [hmc] using hm _ _ hmc
    · simp only [if_neg hu] at h
      exact hm _ _ h

/-- C1: for every sequence of `update_stats` calls starting from the empty
`USER_STATS` map, every statistics entry that exists after the sequence
satisfies `total == Σ by_diff[*].total` and
`correct == Σ by_diff[*].correct`.  Since the sequence is arbitrary, the
invariant holds after every call of every sequence. -/
theorem C1_ledger_invariant (calls : List UpdateCall) (u : UserId) (st : Stats)
    (h : applyCalls (fun _ => none) calls u = some st) : statsInvariant st :=
  applyCalls_invariant calls (fun _ => none) (fun _ _ hx => by cases hx) u st h

theorem C1_ledger_invariant_witness :
    statsInvariant ⟨2, 1, [("easy", ⟨2, 1⟩)], ["2"]⟩ :=
  C1_ledger_invariant
    [⟨7, ⟨"q1", none, none, [("A", "2")], some "A", none, none, none, some "easy", none, none⟩,
        "1", true⟩,
     ⟨7, ⟨"q2", none, none, [("A", "4")], some "A", none, none, none, some "easy", none, none⟩,
        "2", false⟩]
    7 _ (by decide)

theorem pySetAdd_self_mem (l : List String) (x : String) : x ∈ pySetAdd l x := by
  unfold pySetAdd
  by_cases h : x ∈ l
  · simp [h]
  · simp [h]

theorem pySetDiscard_self_not_mem (l : List String) (x : String) :
    x ∉ pySetDiscard l x := by
  unfold pySetDiscard
  intro h
  rcases List.mem_filter.mp h with ⟨_, hx⟩
  simp at hx

/-- C3: `update_stats` puts the position into `wrong_qnums` on an
incorrect answer, removes it again on a subsequent correct answer to the
same position, and puts it back on a further incorrect answer — for any
starting statistics entry and any questions involved. -/
theorem C3_wrong_set_toggle (s0 : Stats) (q1 q2 q3 : Question) (p : String) :
    p ∈ (update_stats s0 q1 p false).wrongQnums
    ∧ p ∉ (update_stats (update_stats s0 q1 p false) q2 p true).wrongQnums
    ∧ p ∈ (update_stats (update_stats (update_stats s0 q1 p false) q2 p true)
            q3 p false).wrongQnums := by
  refine ⟨?_, ?_, ?_⟩
  · simpa [update_stats] using pySetAdd_self_mem s0.wrongQnums p
  · simpa [update_stats] using
      pySetDiscard_self_not_mem (pySetAdd s0.wrongQnums p) p
  · simpa [update_stats] using
      pySetAdd_self_mem (pySetDiscard (pySetAdd s0.wrongQnums p) p) p

/-! ### Answer evaluation helpers (src/main.py:469-487) -/

/-- Python truthiness of an optional string: `None` and `""` are falsy.
(String operations are modelled on the character list so that they reduce
by computation.) -/
def pyTruthy : Option String → Bool
  | none => false
  | some s => !s.data.isEmpty

/-- Python `a or b` on two optional strings. -/
def pyOrOpt (a b : Option String) : Option String :=
  if pyTruthy a then a else b

/-- `correct = q.get("answer") or q.get("correct")` (src/main.py:470). -/
def correctLetter (q : Question) : Option String :=
  pyOrOpt q.answer q.correct

/-- `is_correct = (choice == correct)` (src/main.py:473): exact string
equality against the resolved correct letter; comparing a string with
`None` is `False` in Python. -/
def isCorrectAnswer (choice : String) (q : Question) : Bool :=
  match correctLetter q with
  | some c => choice == c
  | none => false

/-- `explanation = q.get("explanation_kg") or q.get("explanation") or ""`
(src/main.py:471). -/
def resolveExplanation (q : Question) : String :=
  (pyOrOpt q.explanationKg q.explanation).getD ""

/-- Lookup in an insertion-ordered association list (a Python dict read). -/
def alookup : List (String × String) → String → Option String
  | [], _ => none
  | (k, v) :: rest, q => if k = q then some v else alookup rest q

/-- Whether building the feedback text of src/main.py:479-485 succeeds:
on an incorrect answer the code reads `q['options'][correct]`, which
raises `KeyError` when the resolved correct letter is `None` or is not an
option key. -/
def feedbackOk (choice : String) (q : Question) : Bool :=
  if isCorrectAnswer choice q then true
  else
    match correctLetter q with
    | none => false
    | some c => (alookup q.options c).isSome

/-- The feedback text of src/main.py:479-487 (only meaningful when
`feedbackOk` holds). -/
def feedbackText (choice : String) (q : Question) : String :=
  let result :=
    if isCorrectAnswer choice q then "✅ Туура!"
    else
      match correctLetter q with
      | some c => "❌ Туура эмес.\nТуура жооп: " ++ c ++ ") " ++ (alookup q.options c).getD ""
      | none => ""
  result ++ "\n\nТүшүндүрмө:\n" ++ resolveExplanation q

/-! ### Catalog indices (src/main.py:89-111) -/

/-- `str.isdigit()` on the ASCII fragment: nonempty and all digits. -/
def pyIsdigit (s : String) : Bool :=
  !s.data.isEmpty && s.data.all Char.isDigit

/-- `str.lower()`, character by character. -/
def lowerStr (s : String) : String := ⟨s.data.map Char.toLower⟩

/-- `str.strip()`: drop leading and trailing whitespace. -/
def trimStr (s : String) : String :=
  ⟨((s.data.dropWhile Char.isWhitespace).reverse.dropWhile Char.isWhitespace).reverse⟩

/-- `str.startswith(q)`. -/
def startsWithStr (s q : String) : Bool := q.data.isPrefixOf s.data

/-- `QUESTION_INDEX` membership and lookup in one step: the index maps the
decimal token `str(i + 1)` to the i-th loaded question
(src/main.py:96); returns the 1-based position and the question. -/
def questionIndexLookup (qs : List Question) (tok : String) : Option (Nat × Question) :=
  ((List.range qs.length).find? (fun i => toString (i + 1) == tok)).bind
    (fun i => (qs.get? i).map (fun q => (i + 1, q)))

/-- `QUESTION_INDEX` lookup by a 1-based numeric position (the keys are
exactly the decimal tokens of 1..n, so a numeric position is a key iff it
is in range). -/
def questionAtKey (qs : List Question) (pos : Nat) : Option Question :=
  if 1 ≤ pos then qs.get? (pos - 1) else none

/-- `get_questions_by_difficulty` (src/main.py:110-111): the catalog
subsequence whose `difficulty` equals the tag. -/
def get_questions_by_difficulty (qs : List Question) (d : String) : List Question :=
  qs.filter (fun q => q.difficulty == some d)

/-- The linear scan of src/main.py:193-197: first catalog position whose
question id matches (None when no position matches). -/
def findGlobalQnum (qs : List Question) (q : Question) : Option Nat :=
  ((List.range qs.length).find? (fun i =>
    match qs.get? i with
    | some q' => q'.id == q.id
    | none => false)).map (fun i => i + 1)

/-- The keys of `TOPIC_INDEX` in insertion order (src/main.py:99-104):
first occurrence of each truthy topic string, walking positions 1..n. -/
def topicKeys (qs : List Question) : List String :=
  qs.foldl (fun acc q =>
    match q.topic with
    | some t => if t.data.isEmpty then acc else if t ∈ acc then acc else acc ++ [t]
    | none => acc) []

/-- `TOPIC_INDEX[t]`: the 1-based positions whose question carries topic
`t`, in catalog order. -/
def topicPositions (qs : List Question) (t : String) : List Nat :=
  (List.range qs.length).filterMap (fun i =>
    match qs.get? i with
    | some q => if q.topic == some t then some (i + 1) else none
    | none => none)

/-- Python dict assignment on an association list: overwrite in place when
the key exists, else append. -/
def dictInsert : List (String × String) → String → String → List (String × String)
  | [], k, v => [(k, v)]
  | (k', v') :: rest, k, v =>
    if k' = k then (k', v) :: rest else (k', v') :: dictInsert rest k v

/-- `TOPIC_NAME_MAP = {topic.lower(): topic for topic in TOPIC_INDEX}`
(src/main.py:107), as a dict comprehension over the given topic list. -/
def buildNameMap (ts : List String) : List (String × String) :=
  ts.foldl (fun m t => dictInsert m (lowerStr t) t) []

/-- `TOPIC_NAME_MAP` built from the catalog. -/
def TOPIC_NAME_MAP (qs : List Question) : List (String × String) :=
  buildNameMap (topicKeys qs)

/-- First map entry whose (lowercased) key has the query as a prefix
(the `for low, canon in TOPIC_NAME_MAP.items()` scan of
src/main.py:412-415). -/
def findPrefixMatch : List (String × String) → String → Option String
  | [], _ => none
  | (k, v) :: rest, q => if startsWithStr k q then some v else findPrefixMatch rest q

/-- Topic resolution of src/main.py:409-415: exact lowercased-key lookup
first, then the first case-insensitive prefix match. -/
def resolveTopic (tmap : List (String × String)) (query : String) : Option String :=
  match alookup tmap query with
  | some canon => some canon
  | none => findPrefixMatch tmap query

/-! ### Per-user mutable state and handler steps -/

/-- A `USER_PROGRESS` entry (src/main.py:43): current difficulty filter
and the 0-based sequential cursor. -/
structure Progress where
  difficulty : String
  index : Nat
deriving DecidableEq

/-- The three global mutable per-user maps of src/main.py:43-46. -/
structure BotState where
  progress : UserId → Option Progress
  stats : UserId → Option Stats
  seen : UserId → Bool

def setProgress (s : BotState) (u : UserId) (p : Option Progress) : BotState :=
  { s with progress := fun v => if v = u then p else s.progress v }

def setStats (s : BotState) (u : UserId) (st : Option Stats) : BotState :=
  { s with stats := fun v => if v = u then st else s.stats v }

def addSeen (s : BotState) (u : UserId) : BotState :=
  { s with seen := fun v => v == u || s.seen v }

/-- The result of one handler invocation: the new global state, the
user-visible replies sent, the question presented (global position as
carried in the keyboard, may be `None`, plus the question), and whether an
uncaught Python exception escaped the handler. -/
structure StepResult where
  state : BotState
  messages : List String
  presented : Option (Option Nat × Question)
  raised : Bool

def noQuestionsMsg : String := "Бул деңгээлде суроолор жок."
def levelCompleteMsg : String := "Бул деңгээлдеги бардык суроолорду бүттүң."
def gotoFormatMsg : String := "Туура формат: /goto 59"
def gotoNotFoundMsg : String := "Бул номердеги суроо жок."
def navFirstMsg : String := "Бул биринчи суроо."
def navLastMsg : String := "Бул акыркы суроо."
def topicFormatMsg : String := "Туура формат: /topic Algebra"
def topicNotFoundMsg : String := "Мындай тема табылган жок. /topics командасын кара."
def introMsg : String := "intro text (content not load-bearing)"
def helpMsg : String := "help text (content not load-bearing)"
def statsEmptyMsg : String := "Азырынча статистика жок. Адегенде суроолорду чеч."
def statsReportMsg : String := "stats report (content not load-bearing)"
def noWrongMsg : String := "Азырынча ката суроолор жок же баарын оңдогонсүң. 👌"
def noTopicsMsg : String := "Азырынча темалар белгиленген эмес."
def topicsListMsg : String := "topics list (content not load-bearing)"
def notUnderstoodMsg : String := "Команда түшүнүксүз."

def levelChosenMsg (d : String) : String := "Тандалды: " ++ d

/-- The get-or-reset of the progress entry inside `send_sequential`
(src/main.py:179-182): keep the entry when it exists for this difficulty,
else store a fresh `{"difficulty": d, "index": 0}`. -/
def seqEnsureProgress (s : BotState) (u : UserId) (d : String) : Progress × BotState :=
  match s.progress u with
  | some p =>
    if p.difficulty = d then (p, s)
    else (⟨d, 0⟩, setProgress s u (some ⟨d, 0⟩))
  | none => (⟨d, 0⟩, setProgress s u (some ⟨d, 0⟩))

/-- `send_sequential` (src/main.py:173-199): empty difficulty slice
reports "no questions"; a cursor past the end reports "level complete";
otherwise the cursor's question is presented carrying its global
position. -/
def send_sequential (qs : List Question) (u : UserId) (d : String) (s : BotState) : StepResult :=
  let questions := get_questions_by_difficulty qs d
  if questions.isEmpty then ⟨s, [noQuestionsMsg], none, false⟩
  else
    let pr := (seqEnsureProgress s u d).1
    let s1 := (seqEnsureProgress s u d).2
    match questions.get? pr.index with
    | some q => ⟨s1, [], some (findGlobalQnum qs q, q), false⟩
    | none => ⟨s1, [levelCompleteMsg], none, false⟩

/-- `level_handler` (src/main.py:242-250): store a fresh progress entry at
cursor 0 for the chosen difficulty, then chain into `send_sequential`. -/
def levelStep (qs : List Question) (u : UserId) (d : String) (s : BotState) : StepResult :=
  let s1 := setProgress s u (some ⟨d, 0⟩)
  let seq := send_sequential qs u d s1
  ⟨seq.state, levelChosenMsg d :: seq.messages, seq.presented, seq.raised⟩

/-- `/goto` (src/main.py:283-299): format check on the token, then index
membership; presents in manual mode; never touches any per-user state. -/
def gotoStep (qs : List Question) (parts : List String) (s : BotState) : StepResult :=
  match parts with
  | [_, tok] =>
    if pyIsdigit tok then
      match questionIndexLookup qs tok with
      | none => ⟨s, [gotoNotFoundMsg], none, false⟩
      | some (p, q) => ⟨s, [], some (some p, q), false⟩
    else ⟨s, [gotoFormatMsg], none, false⟩
  | _ => ⟨s, [gotoFormatMsg], none, false⟩

/-- `/random` and the intro random button (src/main.py:256-261, 305-311):
`random.randint(1, n)` (raises on an empty catalog), then present; the
random draw is supplied as the oracle `r`. -/
def randomStep (qs : List Question) (r : Nat) (s : BotState) : StepResult :=
  if qs.length = 0 then ⟨s, [], none, true⟩
  else
    match questionAtKey qs (r % qs.length + 1) with
    | none => ⟨s, [], none, true⟩
    | some q => ⟨s, [], some (some (r % qs.length + 1), q), false⟩

/-- `/stats` (src/main.py:317-353): read-only report. -/
def statsStep (u : UserId) (s : BotState) : StepResult :=
  match s.stats u with
  | none => ⟨s, [statsEmptyMsg], none, false⟩
  | some st =>
    if st.total = 0 then ⟨s, [statsEmptyMsg], none, false⟩
    else ⟨s, [statsReportMsg], none, false⟩

/-- `/review_wrong` (src/main.py:359-372): pick a random member of the
wrong-set (oracle `r`) and present it; `QUESTION_INDEX[qnum]` is a raw
dict access. -/
def reviewWrongStep (qs : List Question) (u : UserId) (r : Nat) (s : BotState) : StepResult :=
  match s.stats u with
  | none => ⟨s, [noWrongMsg], none, false⟩
  | some st =>
    if st.wrongQnums.isEmpty then ⟨s, [noWrongMsg], none, false⟩
    else
      match st.wrongQnums.get? (r % st.wrongQnums.length) with
      | none => ⟨s, [], none, true⟩
      | some tok =>
        match questionIndexLookup qs tok with
        | none => ⟨s, [], none, true⟩
        | some (p, q) => ⟨s, [], some (some p, q), false⟩

/-- `/topics` (src/main.py:378-393): read-only listing. -/
def topicsStep (qs : List Question) (s : BotState) : StepResult :=
  if (topicKeys qs).isEmpty then ⟨s, [noTopicsMsg], none, false⟩
  else ⟨s, [topicsListMsg], none, false⟩

/-- `/topic <name>` (src/main.py:399-426): resolve the topic (exact
lowercased match, then prefix scan), then present a random position of
that topic (oracle `r`). -/
def topicStep (qs : List Question) (parts : List String) (r : Nat) (s : BotState) : StepResult :=
  match parts with
  | [_, arg] =>
    match resolveTopic (TOPIC_NAME_MAP qs) (lowerStr (trimStr arg)) with
    | none => ⟨s, [topicNotFoundMsg], none, false⟩
    | some canon =>
      match (topicPositions qs canon).get? (r % (topicPositions qs canon).length) with
      | none => ⟨s, [], none, true⟩
      | some qn =>
        match questionAtKey qs qn with
        | none => ⟨s, [], none, true⟩
        | some q => ⟨s, [], some (some qn, q), false⟩
  | _ => ⟨s, [topicFormatMsg], none, false⟩

/-- `nav_prev` (src/main.py:432-444): position−1 against the full catalog
index, boundary notice when absent; no state change either way. -/
def navPrevStep (qs : List Question) (p : Nat) (s : BotState) : StepResult :=
  match questionAtKey qs (p - 1) with
  | none => ⟨s, [navFirstMsg], none, false⟩
  | some q => ⟨s, [], some (some (p - 1), q), false⟩

/-- `nav_next` (src/main.py:447-459): position+1 against the full catalog
index, boundary notice when absent; no state change either way. -/
def navNextStep (qs : List Question) (p : Nat) (s : BotState) : StepResult :=
  match questionAtKey qs (p + 1) with
  | none => ⟨s, [navLastMsg], none, false⟩
  | some q => ⟨s, [], some (some (p + 1), q), false⟩

/-- `answer_handler` (src/main.py:465-499): raw `QUESTION_INDEX[qnum]`
access (KeyError when the token is not a key), unconditional
`update_stats`, feedback text (whose construction can itself raise on an
incorrect answer with a broken correct letter), and — only in sequential
mode and only when a progress entry exists — cursor advance plus the
`send_sequential` chain. -/
def answerStep (qs : List Question) (u : UserId) (_qid choice navMode tok : String)
    (s : BotState) : StepResult :=
  match questionIndexLookup qs tok with
  | none => ⟨s, [], none, true⟩
  | some (_, q) =>
    let isC := isCorrectAnswer choice q
    let s1 := setStats s u (some (update_stats ((s.stats u).getD initUserStats) q tok isC))
    if feedbackOk choice q then
      let msg := feedbackText choice q
      if navMode == "sequential" then
        match s1.progress u with
        | none => ⟨s1, [msg], none, false⟩
        | some pr =>
          let s2 := setProgress s1 u (some ⟨pr.difficulty, pr.index + 1⟩)
          let seq := send_sequential qs u pr.difficulty s2
          ⟨seq.state, msg :: seq.messages, seq.presented, seq.raised⟩
      else ⟨s1, [msg], none, false⟩
    else ⟨s1, [], none, true⟩

/-- `start_handler` (src/main.py:233-236). -/
def startStep (u : UserId) (s : BotState) : StepResult :=
  ⟨addSeen s u, [introMsg], none, false⟩

/-- `fallback_handler` (src/main.py:505-527). -/
def fallbackStep (u : UserId) (text : String) (s : BotState) : StepResult :=
  if startsWithStr text "/" then ⟨s, [], none, false⟩
  else if s.seen u then ⟨s, [notUnderstoodMsg], none, false⟩
  else ⟨addSeen s u, [introMsg], none, false⟩

/-- One inbound user action, with every random draw supplied as an oracle
argument. -/
inductive Op where
  | start (u : UserId)
  | level (u : UserId) (d : String)
  | introRandom (u : UserId) (r : Nat)
  | introHelp (u : UserId)
  | gotoCmd (u : UserId) (parts : List String)
  | randomCmd (u : UserId) (r : Nat)
  | statsCmd (u : UserId)
  | reviewWrong (u : UserId) (r : Nat)
  | topicsCmd (u : UserId)
  | topicCmd (u : UserId) (parts : List String) (r : Nat)
  | navPrev (u : UserId) (p : Nat)
  | navNext (u : UserId) (p : Nat)
  | answer (u : UserId) (qid choice navMode tok : String)
  | fallback (u : UserId) (text : String)

/-- Dispatch of one inbound action to its handler (the router of
src/main.py). -/
def step (qs : List Question) (op : Op) (s : BotState) : StepResult :=
  match op with
  | .start u => startStep u s
  | .level u d => levelStep qs u d s
  | .introRandom _ r => randomStep qs r s
  | .introHelp _ => ⟨s, [helpMsg], none, false⟩
  | .gotoCmd _ parts => gotoStep qs parts s
  | .randomCmd _ r => randomStep qs r s
  | .statsCmd u => statsStep u s
  | .reviewWrong u r => reviewWrongStep qs u r s
  | .topicsCmd _ => topicsStep qs s
  | .topicCmd _ parts r => topicStep qs parts r s
  | .navPrev _ p => navPrevStep qs p s
  | .navNext _ p => navNextStep qs p s
  | .answer u qid choice nm tok => answerStep qs u qid choice nm tok s
  | .fallback u text => fallbackStep u text s

/-! ### Frame lemmas for the handler steps -/

theorem setProgress_progress_self (s : BotState) (u : UserId) (p : Option Progress) :
    (setProgress s u p).progress u = p := by simp [setProgress]

theorem setProgress_progress_ne (s : BotState) (u : UserId) (p : Option Progress)
    (v : UserId) (h : v ≠ u) : (setProgress s u p).progress v = s.progress v := by
  simp [setProgress, h]

theorem setStats_progress (s : BotState) (u : UserId) (st : Option Stats) :
    (setStats s u st).progress = s.progress := rfl

theorem setStats_stats_self (s : BotState) (u : UserId) (st : Option Stats) :
    (setStats s u st).stats u = st := by simp [setStats]

theorem seqEnsureProgress_matching (s : BotState) (u : UserId) (d : String)
    (pr : Progress) (h : s.progress u = some pr) (hd : pr.difficulty = d) :
    seqEnsureProgress s u d = (pr, s) := by
  unfold seqEnsureProgress
  rw [h]
  simp [hd]

theorem seqEnsureProgress_snd_progress_other (s : BotState) (u : UserId) (d : String)
    (v : UserId) (h : v ≠ u) :
    ((seqEnsureProgress s u d).2).progress v = s.progress v := by
  unfold seqEnsureProgress
  cases hp : s.progress u with
  | none => simp [setProgress, h]
  | some p =>
    by_cases hd : p.difficulty = d
    · simp [hd]
    · simp [hd, setProgress, h]

theorem seqEnsureProgress_snd_stats (s : BotState) (u : UserId) (d : String) :
    ((seqEnsureProgress s u d).2).stats = s.stats := by
  unfold seqEnsureProgress
  cases hp : s.progress u with
  | none => rfl
  | some p =>
    by_cases hd : p.difficulty = d
    · simp [hd]
    · simp [hd, setProgress]

theorem send_sequential_state_cases (qs : List Question) (u : UserId) (d : String)
    (s : BotState) :
    (send_sequential qs u d s).state = s
      ∨ (send_sequential qs u d s).state = (seqEnsureProgress s u d).2 := by
  unfold send_sequential
  cases he : (get_questions_by_difficulty qs d).isEmpty with
  | true => exact Or.inl (by simp [he])
  | false =>
    right
    rw [if_neg (by simp [he])]
    dsimp only
    split <;> rfl

theorem send_sequential_progress_matching (qs : List Question) (u : UserId) (d : String)
    (s : BotState) (pr : Progress) (h : s.progress u = some pr) (hd : pr.difficulty = d) :
    (send_sequential qs u d s).state.progress u = some pr := by
  rcases send_sequential_state_cases qs u d s with hc | hc
  · rw [hc, h]
  · rw [hc, seqEnsureProgress_matching s u d pr h hd, h]

theorem send_sequential_progress_other (qs : List Question) (u : UserId) (d : String)
    (s : BotState) (v : UserId) (h : v ≠ u) :
    (send_sequential qs u d s).state.progress v = s.progress v := by
  rcases send_sequential_state_cases qs u d s with hc | hc
  · rw [hc]
  · rw [hc, seqEnsureProgress_snd_progress_other s u d v h]

theorem send_sequential_stats (qs : List Question) (u : UserId) (d : String)
    (s : BotState) : (send_sequential qs u d s).state.stats = s.stats := by
  rcases send_sequential_state_cases qs u d s with hc | hc
  · rw [hc]
  · rw [hc, seqEnsureProgress_snd_stats s u d]

theorem gotoStep_state (qs : List Question) (parts : List String) (s : BotState) :
    (gotoStep qs parts s).state = s := by
  unfold gotoStep
  repeat' split
  all_goals rfl

theorem randomStep_state (qs : List Question) (r : Nat) (s : BotState) :
    (randomStep qs r s).state = s := by
  unfold randomStep
  repeat' split
  all_goals rfl

theorem statsStep_state (u : UserId) (s : BotState) : (statsStep u s).state = s := by
  unfold statsStep
  repeat' split
  all_goals rfl

theorem reviewWrongStep_state (qs : List Question) (u : UserId) (r : Nat) (s : BotState) :
    (reviewWrongStep qs u r s).state = s := by
  unfold reviewWrongStep
  repeat' split
  all_goals rfl

theorem topicsStep_state (qs : List Question) (s : BotState) :
    (topicsStep qs s).state = s := by
  unfold topicsStep
  repeat' split
  all_goals rfl

theorem topicStep_state (qs : List Question) (parts : List String) (r : Nat) (s : BotState) :
    (topicStep qs parts r s).state = s := by
  unfold topicStep
  repeat' split
  all_goals rfl

theorem navPrevStep_state (qs : List Question) (p : Nat) (s : BotState) :
    (navPrevStep qs p s).state = s := by
  unfold navPrevStep
  repeat' split
  all_goals rfl

theorem navNextStep_state (qs : List Question) (p : Nat) (s : BotState) :
    (navNextStep qs p s).state = s := by
  unfold navNextStep
  repeat' split
  all_goals rfl

theorem fallbackStep_progress (u : UserId) (t : String) (s : BotState) :
    (fallbackStep u t s).state.progress = s.progress := by
  unfold fallbackStep
  repeat' split
  all_goals rfl

theorem answerStep_progress_other (qs : List Question) (u' : UserId)
    (qid choice nm tok : String) (s : BotState) (u : UserId)
    (h : ¬(u' = u ∧ nm = "sequential")) :
    (answerStep qs u' qid choice nm tok s).state.progress u = s.progress u := by
  unfold answerStep
  cases hq : questionIndexLookup qs tok with
  | none => rfl
  | some pq =>
    obtain ⟨p, q⟩ := pq
    dsimp only
    by_cases hfb : feedbackOk choice q
    · simp only [hfb, if_true]
      by_cases hnm : nm = "sequential"
      · have hu : u ≠ u' := fun he => h ⟨he.symm, hnm⟩
        simp only [hnm, beq_self_eq_true, if_true]
        cases hpr : (setStats s u' (some (update_stats ((s.stats u').getD initUserStats)
            q tok (isCorrectAnswer choice q)))).progress u' with
        | none => simp [setStats]
        | some pr =>
          simp only [hpr]
          rw [send_sequential_progress_other _ _ _ _ _ hu,
            setProgress_progress_ne _ _ _ _ hu]
          rfl
      · have hnm' : (nm == "sequential") = false := by
          simpa using hnm
        simp [hnm', setStats]
    · simp [hfb, setStats]

/-- The operations that are allowed to move user `u`'s sequential cursor:
`u` picking a difficulty level, and `u` answering in sequential mode. -/
def isCursorOp (u : UserId) : Op → Bool
  | .level u' _ => u' == u
  | .answer u' _ _ nm _ => u' == u && nm == "sequential"
  | _ => false

/-- C2: for every user in sequential mode, (a) selecting a difficulty sets
the cursor to 0; (b) an answered sequential question advances the cursor by
exactly 1 for any correctness of the answer; (c) every operation other
than those two leaves the user's cursor (indeed the whole progress entry)
unchanged. -/
theorem C2_sequential_cursor (qs : List Question) (s : BotState) (u : UserId) :
    (∀ d : String,
        (step qs (Op.level u d) s).state.progress u = some ⟨d, 0⟩)
    ∧ (∀ (qid choice tok : String) (p : Nat) (q : Question) (pr : Progress),
        questionIndexLookup qs tok = some (p, q) →
        feedbackOk choice q = true →
        s.progress u = some pr →
        (step qs (Op.answer u qid choice "sequential" tok) s).state.progress u
          = some ⟨pr.difficulty, pr.index + 1⟩)
    ∧ (∀ op : Op, isCursorOp u op = false →
        (step qs op s).state.progress u = s.progress u) := by
  refine ⟨?_, ?_, ?_⟩
  · intro d
    simp only [step, levelStep]
    exact send_sequential_progress_matching qs u d _ ⟨d, 0⟩
      (setProgress_progress_self s u (some ⟨d, 0⟩)) rfl
  · intro qid choice tok p q pr hq hfb hpr
    simp only [step, answerStep, hq]
    simp only [hfb, if_true, beq_self_eq_true]
    have hpr1 : (setStats s u (some (update_stats ((s.stats u).getD initUserStats)
        q tok (isCorrectAnswer choice q)))).progress u = some pr := hpr
    simp only [hpr1]
    exact send_sequential_progress_matching qs u pr.difficulty _ ⟨pr.difficulty, pr.index + 1⟩
      (setProgress_progress_self _ u _) rfl
  · intro op hop
    cases op with
    | start u' => rfl
    | level u' d =>
      have hu : u ≠ u' := by
        simp only [isCursorOp] at hop
        intro he
        rw [he] at hop
        simp at hop
      simp only [step, levelStep]
      rw [send_sequential_progress_other _ _ _ _ _ hu,
        setProgress_progress_ne _ _ _ _ hu]
    | introRandom u' r => rw [step, randomStep_state]
    | introHelp u' => rfl
    | gotoCmd u' parts => rw [step, gotoStep_state]
    | randomCmd u' r => rw [step, randomStep_state]
    | statsCmd u' => rw [step, statsStep_state]
    | reviewWrong u' r => rw [step, reviewWrongStep_state]
    | topicsCmd u' => rw [step, topicsStep_state]
    | topicCmd u' parts r => rw [step, topicStep_state]
    | navPrev u' p => rw [step, navPrevStep_state]
    | navNext u' p => rw [step, navNextStep_state]
    | answer u' qid choice nm tok =>
      refine answerStep_progress_other qs u' qid choice nm tok s u ?_
      rintro ⟨rfl, rfl⟩
      simp [isCursorOp] at hop
    | fallback u' t => rw [step, fallbackStep_progress]

/-! ### Demo catalog and state used by the concrete witnesses -/

def demoQ1 : Question :=
  ⟨"q1", some "1+1", none, [("A", "2"), ("B", "3")], some "A", none,
    none, none, some "easy", some "Algebra", none⟩

def demoQ2 : Question :=
  ⟨"q2", some "2+2", none, [("A", "4"), ("B", "5")], some "A", none,
    none, none, some "easy", some "Geometry", none⟩

def demoQs : List Question := [demoQ1, demoQ2]

def demoInit : BotState := ⟨fun _ => none, fun _ => none, fun _ => false⟩

def demoStateSeq : BotState := setProgress demoInit 7 (some ⟨"easy", 0⟩)

theorem C2_sequential_cursor_witness :
    (step demoQs (Op.answer 7 "q1" "A" "sequential" "1") demoStateSeq).state.progress 7
      = some ⟨"easy", 1⟩ :=
  (C2_sequential_cursor demoQs demoStateSeq 7).2.1 "q1" "A" "1" 1 demoQ1 ⟨"easy", 0⟩
    (by decide) (by decide) (by decide)

/-- C4 (code evaluated at the failing input): an answer callback whose
position token "5" is not a key of the two-question catalog makes
`answer_handler` raise an uncaught KeyError at `QUESTION_INDEX[qnum]`
(src/main.py:469): no reply at all is sent and no state changes — there is
no handled "question not found" reply as the claim requires. -/
theorem C4_unknown_position_uncaught :
    (step demoQs (Op.answer 1 "q1" "A" "manual" "5") demoInit).raised = true
    ∧ (step demoQs (Op.answer 1 "q1" "A" "manual" "5") demoInit).messages = []
    ∧ (step demoQs (Op.answer 1 "q1" "A" "manual" "5") demoInit).state = demoInit := by
  refine ⟨by decide, by decide, rfl⟩

/-- C5: a `/goto` whose token is not a digit string, or is not a key of
the 1-based catalog index, replies with the format or not-found message,
presents nothing, and leaves every Session (progress) entry and every
Statistics entry unchanged. -/
theorem C5_goto_no_mutation (qs : List Question) (s : BotState) (u : UserId)
    (c0 tok : String)
    (h : pyIsdigit tok = false ∨ questionIndexLookup qs tok = none) :
    ((step qs (Op.gotoCmd u [c0, tok]) s).messages = [gotoFormatMsg]
      ∨ (step qs (Op.gotoCmd u [c0, tok]) s).messages = [gotoNotFoundMsg])
    ∧ (step qs (Op.gotoCmd u [c0, tok]) s).state.progress = s.progress
    ∧ (step qs (Op.gotoCmd u [c0, tok]) s).state.stats = s.stats
    ∧ (step qs (Op.gotoCmd u [c0, tok]) s).presented = none := by
  have hs : (step qs (Op.gotoCmd u [c0, tok]) s).state = s := gotoStep_state qs _ s
  refine ⟨?_, by rw [hs], by rw [hs], ?_⟩
  · simp only [step, gotoStep]
    cases hd : pyIsdigit tok with
    | false => simp
    | true =>
      rcases h with h | h
      · rw [hd] at h
        cases h
      · simp [h]
  · simp only [step, gotoStep]
    cases hd : pyIsdigit tok with
    | false => simp
    | true =>
      rcases h with h | h
      · rw [hd] at h
        cases h
      · simp [h]

theorem C5_goto_no_mutation_witness :
    ((step demoQs (Op.gotoCmd 7 ["/goto", "abc"]) demoInit).messages = [gotoFormatMsg]
      ∨ (step demoQs (Op.gotoCmd 7 ["/goto", "abc"]) demoInit).messages = [gotoNotFoundMsg])
    ∧ (step demoQs (Op.gotoCmd 7 ["/goto", "abc"]) demoInit).state.progress = demoInit.progress
    ∧ (step demoQs (Op.gotoCmd 7 ["/goto", "abc"]) demoInit).state.stats = demoInit.stats
    ∧ (step demoQs (Op.gotoCmd 7 ["/goto", "abc"]) demoInit).presented = none :=
  C5_goto_no_mutation demoQs demoInit 7 "/goto" "abc" (Or.inl (by decide))

/-- C6: from a displayed position `p`, `nav_prev`/`nav_next` present the
question at position p−1 / p+1 whenever that position exists in the full
catalog index, and otherwise reply with the boundary notice; in all four
cases the global state is returned unchanged. -/
theorem C6_relative_navigation (qs : List Question) (s : BotState) (u : UserId)
    (p : Nat) (_hp : 1 ≤ p ∧ p ≤ qs.length) :
    (∀ q : Question, questionAtKey qs (p - 1) = some q →
        step qs (Op.navPrev u p) s = ⟨s, [], some (some (p - 1), q), false⟩)
    ∧ (questionAtKey qs (p - 1) = none →
        step qs (Op.navPrev u p) s = ⟨s, [navFirstMsg], none, false⟩)
    ∧ (∀ q : Question, questionAtKey qs (p + 1) = some q →
        step qs (Op.navNext u p) s = ⟨s, [], some (some (p + 1), q), false⟩)
    ∧ (questionAtKey qs (p + 1) = none →
        step qs (Op.navNext u p) s = ⟨s, [navLastMsg], none, false⟩) := by
  refine ⟨?_, ?_, ?_, ?_⟩
  · intro q hq
    simp [step, navPrevStep, hq]
  · intro hq
    simp [step, navPrevStep, hq]
  · intro q hq
    simp [step, navNextStep, hq]
  · intro hq
    simp [step, navNextStep, hq]

theorem C6_relative_navigation_witness :
    step demoQs (Op.navPrev 7 2) demoInit = ⟨demoInit, [], some (some 1, demoQ1), false⟩ :=
  (C6_relative_navigation demoQs demoInit 7 2 (by decide)).1 demoQ1 (by decide)

/-- C9: the Answer Evaluator judges a submission correct exactly when the
chosen letter equals the resolved correct letter as strings (exact,
case-sensitive); the correct letter is the `answer` field with `correct`
as fallback (Python truthiness `or`); the explanation resolves to the
empty string when the question has neither explanation field. -/
theorem C9_answer_evaluation :
    (∀ (choice : String) (q : Question) (c : String),
        correctLetter q = some c → (isCorrectAnswer choice q = true ↔ choice = c))
    ∧ (∀ q : Question, pyTruthy q.answer = true → correctLetter q = q.answer)
    ∧ (∀ q : Question, pyTruthy q.answer = false → correctLetter q = q.correct)
    ∧ (∀ q : Question, q.explanationKg = none → q.explanation = none →
        resolveExplanation q = "") := by
  refine ⟨?_, ?_, ?_, ?_⟩
  · intro choice q c h
    simp [isCorrectAnswer, h]
  · intro q h
    simp [correctLetter, pyOrOpt, h]
  · intro q h
    simp [correctLetter, pyOrOpt, h]
  · intro q h1 h2
    simp [resolveExplanation, pyOrOpt, pyTruthy, h1, h2]

theorem C9_answer_evaluation_witness :
    isCorrectAnswer "B" demoQ1 = true ↔ "B" = "A" :=
  C9_answer_evaluation.1 "B" demoQ1 "A" (by decide)

/-- C10: a sequential-mode answer from a user with no progress entry still
updates the statistics entry through `update_stats`, but advances no
cursor (no progress entry changes for anyone) and presents no follow-up
question. -/
theorem C10_sequential_answer_without_session (qs : List Question) (s : BotState)
    (u : UserId) (qid choice tok : String) (p : Nat) (q : Question)
    (hq : questionIndexLookup qs tok = some (p, q))
    (hfb : feedbackOk choice q = true)
    (hpr : s.progress u = none) :
    (step qs (Op.answer u qid choice "sequential" tok) s).state.stats u
      = some (update_stats ((s.stats u).getD initUserStats) q tok (isCorrectAnswer choice q))
    ∧ (step qs (Op.answer u qid choice "sequential" tok) s).state.progress = s.progress
    ∧ (step qs (Op.answer u qid choice "sequential" tok) s).presented = none
    ∧ (step qs (Op.answer u qid choice "sequential" tok) s).raised = false := by
  have hpr1 : (setStats s u (some (update_stats ((s.stats u).getD initUserStats)
      q tok (isCorrectAnswer choice q)))).progress u = none := hpr
  simp only [step, answerStep, hq]
  simp only [hfb, if_true, beq_self_eq_true, hpr1]
  refine ⟨setStats_stats_self s u _, ?_, ?_, ?_⟩ <;> first | rfl | trivial

theorem C10_sequential_answer_without_session_witness :
    (step demoQs (Op.answer 7 "q1" "B" "sequential" "1") demoInit).state.stats 7
      = some (update_stats ((demoInit.stats 7).getD initUserStats) demoQ1 "1"
          (isCorrectAnswer "B" demoQ1))
    ∧ (step demoQs (Op.answer 7 "q1" "B" "sequential" "1") demoInit).state.progress
        = demoInit.progress
    ∧ (step demoQs (Op.answer 7 "q1" "B" "sequential" "1") demoInit).presented = none
    ∧ (step demoQs (Op.answer 7 "q1" "B" "sequential" "1") demoInit).raised = false :=
  C10_sequential_answer_without_session demoQs demoInit 7 "q1" "B" "1" 1 demoQ1
    (by decide) (by decide) rfl

/-! ### Topic-resolution lemmas (for C7) -/

theorem mem_dictInsert (m : List (String × String)) (k v a b : String)
    (h : (a, b) ∈ dictInsert m k v) : (a, b) ∈ m ∨ (a = k ∧ b = v) := by
  induction m with
  | nil =>
    simp only [dictInsert, List.mem_singleton] at h
    exact Or.inr (by simpa using h)
  | cons hd tl ih =>
    obtain ⟨k', v'⟩ := hd
    by_cases hk : k' = k
    · simp only [dictInsert, if_pos hk, List.mem_cons] at h
      rcases h with he | ht
      · injection he with h1 h2
        exact Or.inr ⟨h1.trans hk, h2⟩
      · exact Or.inl (List.mem_cons_of_mem _ ht)
    · simp only [dictInsert, if_neg hk, List.mem_cons] at h
      rcases h with he | ht
      · exact Or.inl (List.mem_cons.mpr (Or.inl he))
      · rcases ih ht with h1 | h2
        · exact Or.inl (List.mem_cons_of_mem _ h1)
        · exact Or.inr h2

theorem alookup_mem (m : List (String × String)) (q v : String)
    (h : alookup m q = some v) : (q, v) ∈ m := by
  induction m with
  | nil => simp [alookup] at h
  | cons hd tl ih =>
    obtain ⟨k', v'⟩ := hd
    by_cases hk : k' = q
    · simp only [alookup, if_pos hk] at h
      cases h
      subst hk
      exact List.mem_cons_self _ _
    · simp only [alookup, if_neg hk] at h
      exact List.mem_cons_of_mem _ (ih h)

theorem alookup_dictInsert_self (m : List (String × String)) (k v : String) :
    alookup (dictInsert m k v) k = some v := by
  induction m with
  | nil => simp [dictInsert, alookup]
  | cons hd tl ih =>
    obtain ⟨k', v'⟩ := hd
    by_cases hk : k' = k
    · simp [dictInsert, hk, alookup]
    · simp [dictInsert, hk, alookup, ih]

theorem alookup_dictInsert_isSome (m : List (String × String)) (k v a : String)
    (h : (alookup m a).isSome) : (alookup (dictInsert m k v) a).isSome := by
  induction m with
  | nil => simp [alookup] at h
  | cons hd tl ih =>
    obtain ⟨k', v'⟩ := hd
    by_cases hk : k' = k
    · subst hk
      simp only [dictInsert, if_pos rfl]
      by_cases ha : k' = a
      · simp [alookup, ha]
      · simp only [alookup, if_neg ha] at h
        simp [alookup, ha, h]
    · simp only [dictInsert, if_neg hk]
      by_cases ha : k' = a
      · simp [alookup, ha]
      · simp only [alookup, if_neg ha] at h
        simp [alookup, ha, ih h]

theorem buildFold_mem (ts : List String) (m : List (String × String)) (a b : String)
    (h : (a, b) ∈ ts.foldl (fun m t => dictInsert m (lowerStr t) t) m) :
    (a, b) ∈ m ∨ (b ∈ ts ∧ a = lowerStr b) := by
  induction ts generalizing m with
  | nil => exact Or.inl h
  | cons t ts ih =>
    simp only [List.foldl_cons] at h
    rcases ih _ h with h' | h'
    · rcases mem_dictInsert _ _ _ _ _ h' with h'' | ⟨h1, h2⟩
      · exact Or.inl h''
      · subst h2
        exact Or.inr ⟨List.mem_cons_self _ _, h1⟩
    · exact Or.inr ⟨List.mem_cons_of_mem _ h'.1, h'.2⟩

theorem buildFold_isSome_preserved (ts : List String) (m : List (String × String))
    (a : String) (h : (alookup m a).isSome) :
    (alookup (ts.foldl (fun m t => dictInsert m (lowerStr t) t) m) a).isSome := by
  induction ts generalizing m with
  | nil => exact h
  | cons t ts ih =>
    simp only [List.foldl_cons]
    exact ih _ (alookup_dictInsert_isSome _ _ _ _ h)

theorem buildFold_mem_isSome (ts : List String) (t : String) (h : t ∈ ts) :
    ∀ m : List (String × String),
      (alookup (ts.foldl (fun m t => dictInsert m (lowerStr t) t) m) (lowerStr t)).isSome := by
  induction ts with
  | nil => cases h
  | cons t' ts ih =>
    intro m
    simp only [List.foldl_cons]
    rcases List.mem_cons.mp h with rfl | ht
    · exact buildFold_isSome_preserved ts _ _ (by rw [alookup_dictInsert_self]; rfl)
    · exact ih ht _

theorem findPrefixMatch_eq_none (m : List (String × String)) (q : String)
    (h : ∀ a b, (a, b) ∈ m → startsWithStr a q = false) :
    findPrefixMatch m q = none := by
  induction m with
  | nil => rfl
  | cons hd tl ih =>
    obtain ⟨k, v⟩ := hd
    have hk := h k v (List.mem_cons_self _ _)
    simp only [findPrefixMatch, hk]
    simp only [Bool.false_eq_true, if_false]
    exact ih (fun a b hab => h a b (List.mem_cons_of_mem _ hab))

/-- C7: if some known topic matches the (stripped, lowercased) query
exactly case-insensitively, `resolveTopic` resolves to an exactly-matching
known topic — unconditionally, so in particular even when other topics
also match by case-insensitive prefix; and when no known topic matches
exactly or by prefix, the `/topic` handler replies with the user-visible
not-found message, presents nothing and leaves the state unchanged. -/
theorem C7_topic_resolution (qs : List Question) (s : BotState) (u : UserId)
    (c0 arg : String) (r : Nat) :
    (∀ t, t ∈ topicKeys qs → lowerStr t = lowerStr (trimStr arg) →
        ∃ c, resolveTopic (TOPIC_NAME_MAP qs) (lowerStr (trimStr arg)) = some c
          ∧ c ∈ topicKeys qs ∧ lowerStr c = lowerStr (trimStr arg))
    ∧ ((∀ t, t ∈ topicKeys qs → lowerStr t ≠ lowerStr (trimStr arg)
          ∧ startsWithStr (lowerStr t) (lowerStr (trimStr arg)) = false) →
        (step qs (Op.topicCmd u [c0, arg] r) s).messages = [topicNotFoundMsg]
        ∧ (step qs (Op.topicCmd u [c0, arg] r) s).presented = none
        ∧ (step qs (Op.topicCmd u [c0, arg] r) s).state = s) := by
  constructor
  · intro t ht heq
    have h1 : (alookup (TOPIC_NAME_MAP qs) (lowerStr t)).isSome :=
      buildFold_mem_isSome (topicKeys qs) t ht []
    rw [heq] at h1
    obtain ⟨c, hc⟩ := Option.isSome_iff_exists.mp h1
    have hmem := alookup_mem _ _ _ hc
    rcases buildFold_mem (topicKeys qs) [] _ _ hmem with h' | ⟨hcmem, hlow⟩
    · cases h'
    · refine ⟨c, ?_, hcmem, hlow.symm⟩
      unfold resolveTopic
      rw [hc]
  · intro hno
    have halk : alookup (TOPIC_NAME_MAP qs) (lowerStr (trimStr arg)) = none := by
      cases hk : alookup (TOPIC_NAME_MAP qs) (lowerStr (trimStr arg)) with
      | none => rfl
      | some c =>
        have hmem := alookup_mem _ _ _ hk
        rcases buildFold_mem (topicKeys qs) [] _ _ hmem with h' | ⟨hcmem, hlow⟩
        · cases h'
        · exact absurd hlow.symm (hno c hcmem).1
    have hpf : findPrefixMatch (TOPIC_NAME_MAP qs) (lowerStr (trimStr arg)) = none := by
      refine findPrefixMatch_eq_none _ _ ?_
      intro a b hab
      rcases buildFold_mem (topicKeys qs) [] a b hab with h' | ⟨hbmem, hlow⟩
      · cases h'
      · rw [hlow]
        exact (hno b hbmem).2
    have hres : resolveTopic (TOPIC_NAME_MAP qs) (lowerStr (trimStr arg)) = none := by
      unfold resolveTopic
      rw [halk, hpf]
    refine ⟨?_, ?_, ?_⟩ <;> simp [step, topicStep, hres]

theorem C7_topic_resolution_witness :
    (step demoQs (Op.topicCmd 7 ["/topic", "zzz"] 0) demoInit).messages = [topicNotFoundMsg]
    ∧ (step demoQs (Op.topicCmd 7 ["/topic", "zzz"] 0) demoInit).presented = none
    ∧ (step demoQs (Op.topicCmd 7 ["/topic", "zzz"] 0) demoInit).state = demoInit :=
  (C7_topic_resolution demoQs demoInit 7 "/topic" "zzz" 0).2 (by decide)

/-! ### Analytics layer (src/db.py) -/

/-- The outcome of a database call: a fetched value, or any raised
exception caught by the wrapping `try`/`except`. -/
inductive DbOutcome (α : Type) where
  | ok (val : α)
  | err
deriving DecidableEq

/-- `get_conn` (src/db.py:52-64): yields no connection when the pool is
missing, and converts any acquisition error into "no connection". -/
def get_conn (pool : Option Unit) (acquire : DbOutcome Unit) : Option Unit :=
  match pool with
  | none => none
  | some _ =>
    match acquire with
    | .ok c => some c
    | .err => none

/-- `get_dau_today` (src/db.py:143-168): `count or 0` on success, 0 when
the store is unavailable or the query errors. -/
def get_dau_today (pool : Option Unit) (acquire : DbOutcome Unit)
    (fetch : DbOutcome (Option Nat)) : Nat :=
  match get_conn pool acquire with
  | none => 0
  | some _ =>
    match fetch with
    | .err => 0
    | .ok v => v.getD 0

/-- `get_attempts_today` (src/db.py:171-195). -/
def get_attempts_today (pool : Option Unit) (acquire : DbOutcome Unit)
    (fetch : DbOutcome (Option Nat)) : Nat :=
  match get_conn pool acquire with
  | none => 0
  | some _ =>
    match fetch with
    | .err => 0
    | .ok v => v.getD 0

/-- `get_attempts_total` (src/db.py:198-209). -/
def get_attempts_total (pool : Option Unit) (acquire : DbOutcome Unit)
    (fetch : DbOutcome (Option Nat)) : Nat :=
  match get_conn pool acquire with
  | none => 0
  | some _ =>
    match fetch with
    | .err => 0
    | .ok v => v.getD 0

/-- `get_accuracy` (src/db.py:212-232): `(correct / total) * 100` when a
row with positive total comes back, else 0.0 (modelled in ℚ). -/
def get_accuracy (pool : Option Unit) (acquire : DbOutcome Unit)
    (fetch : DbOutcome (Option (Nat × Nat))) : ℚ :=
  match get_conn pool acquire with
  | none => 0
  | some _ =>
    match fetch with
    | .err => 0
    | .ok none => 0
    | .ok (some (total, correct)) =>
      if 0 < total then ((correct : ℚ) / (total : ℚ)) * 100 else 0

/-- `get_attempts_per_day` (src/db.py:235-264). -/
def get_attempts_per_day (pool : Option Unit) (acquire : DbOutcome Unit)
    (fetch : DbOutcome (List (String × Nat))) : List (String × Nat) :=
  match get_conn pool acquire with
  | none => []
  | some _ =>
    match fetch with
    | .err => []
    | .ok rows => rows

/-- `get_top_users_last_7_days` (src/db.py:267-295). -/
def get_top_users_last_7_days (pool : Option Unit) (acquire : DbOutcome Unit)
    (fetch : DbOutcome (List (Nat × Nat))) : List (Nat × Nat) :=
  match get_conn pool acquire with
  | none => []
  | some _ =>
    match fetch with
    | .err => []
    | .ok rows => rows

/-- `get_retention_d1` (src/db.py:298-332). -/
def get_retention_d1 (pool : Option Unit) (acquire : DbOutcome Unit)
    (fetch : DbOutcome (Option (Nat × Nat))) : ℚ :=
  match get_conn pool acquire with
  | none => 0
  | some _ =>
    match fetch with
    | .err => 0
    | .ok none => 0
    | .ok (some (totalUsers, returned)) =>
      if 0 < totalUsers then ((returned : ℚ) / (totalUsers : ℚ)) * 100 else 0

/-- C8: every analytics read query returns the zero value of its result
type (0, 0 in ℚ, or the empty list) whenever the backing store is
unavailable (no connection) or the query itself errors. -/
theorem C8_analytics_zero_on_failure (pool : Option Unit) (acquire : DbOutcome Unit)
    (f1 f2 f3 : DbOutcome (Option Nat)) (f4 : DbOutcome (Option (Nat × Nat)))
    (f5 : DbOutcome (List (String × Nat))) (f6 : DbOutcome (List (Nat × Nat)))
    (f7 : DbOutcome (Option (Nat × Nat))) :
    (get_conn pool acquire = none ∨ f1 = DbOutcome.err →
      get_dau_today pool acquire f1 = 0)
    ∧ (get_conn pool acquire = none ∨ f2 = DbOutcome.err →
      get_attempts_today pool acquire f2 = 0)
    ∧ (get_conn pool acquire = none ∨ f3 = DbOutcome.err →
      get_attempts_total pool acquire f3 = 0)
    ∧ (get_conn pool acquire = none ∨ f4 = DbOutcome.err →
      get_accuracy pool acquire f4 = 0)
    ∧ (get_conn pool acquire = none ∨ f5 = DbOutcome.err →
      get_attempts_per_day pool acquire f5 = [])
    ∧ (get_conn pool acquire = none ∨ f6 = DbOutcome.err →
      get_top_users_last_7_days pool acquire f6 = [])
    ∧ (get_conn pool acquire = none ∨ f7 = DbOutcome.err →
      get_retention_d1 pool acquire f7 = 0) := by
  refine ⟨?_, ?_, ?_, ?_, ?_, ?_, ?_⟩
  · rintro (hc | hf)
    · simp [get_dau_today, hc]
    · subst hf
      unfold get_dau_today
      cases get_conn pool acquire <;> rfl
  · rintro (hc | hf)
    · simp [get_attempts_today, hc]
    · subst hf
      unfold get_attempts_today
      cases get_conn pool acquire <;> rfl
  · rintro (hc | hf)
    · simp [get_attempts_total, hc]
    · subst hf
      unfold get_attempts_total
      cases get_conn pool acquire <;> rfl
  · rintro (hc | hf)
    · simp [get_accuracy, hc]
    · subst hf
      unfold get_accuracy
      cases get_conn pool acquire <;> rfl
  · rintro (hc | hf)
    · simp [get_attempts_per_day, hc]
    · subst hf
      unfold get_attempts_per_day
      cases get_conn pool acquire <;> rfl
  · rintro (hc | hf)
    · simp [get_top_users_last_7_days, hc]
    · subst hf
      unfold get_top_users_last_7_days
      cases get_conn pool acquire <;> rfl
  · rintro (hc | hf)
    · simp [get_retention_d1, hc]
    · subst hf
      unfold get_retention_d1
      cases get_conn pool acquire <;> rfl

theorem C8_analytics_zero_on_failure_witness :
    get_dau_today none (DbOutcome.ok ()) (DbOutcome.ok (some 5)) = 0 :=
  (C8_analytics_zero_on_failure none (DbOutcome.ok ()) (DbOutcome.ok (some 5))
    (DbOutcome.ok (some 4)) (DbOutcome.ok (some 3)) (DbOutcome.ok (some (2, 1)))
    (DbOutcome.ok []) (DbOutcome.ok []) (DbOutcome.ok (some (2, 1)))).1 (Or.inl rfl)

end SatBot
